import Mathlib

/-!
Shallow embedding of the change-aware polling caches of this repository:
the reading-list worker `goodreads-worker.js`, an older reading-list
worker variant, and the playback worker `spotify-worker.js`.

Times are Unix-epoch milliseconds modelled as `Nat`.  JavaScript's
`Date.now() - t < w` comparisons agree with truncated `Nat` subtraction
for every window used here: all windows are positive, and a negative
JavaScript difference compares below the window exactly as the
truncated difference `0` does.  A fallible upstream fetch is an
`Except Unit` input; `Option` models JavaScript `null`/`undefined`.
Each handler is a pure function of the invocation time, the cache
entry read from the KV store, and the outcome the upstream fetch would
produce; its result records the response body, the cache state after
the invocation, the number of KV writes performed, and whether the
upstream fetch was actually consumed.
-/

/-- A parsed book from the Goodreads RSS feed (`parseGoodreadsRSS`). -/
structure GBook where
  title : String
  author : String
  cover : String
  link : String
deriving DecidableEq, Repr

/-- The record shape of `goodreads-worker.js`: `parseGoodreadsRSS` there
returns `{ current, previous }`, each a book or `null`. -/
structure GBooks where
  current : Option GBook
  previous : Option GBook
deriving DecidableEq, Repr

/-- The record shape of the older reading-list worker variant, whose
`parseGoodreadsRSS` returns only `{ current }`. -/
structure P1Books where
  current : Option GBook
deriving DecidableEq, Repr

/-- Cache entry written by `goodreads-worker.js`: `{ data, timestamp }`. -/
structure GEntry where
  data : GBooks
  timestamp : Nat
deriving DecidableEq, Repr

/-- Cache entry written by the older reading-list worker variant. -/
structure P1Entry where
  data : P1Books
  timestamp : Nat
deriving DecidableEq, Repr

/-- A normalized playback record built by `getNowPlaying` /
`getRecentlyPlayed` in `spotify-worker.js`.  `trackId` is `item.id`,
which JavaScript may leave `null`/`undefined`. -/
structure Track where
  isPlaying : Bool
  title : String
  artist : String
  album : String
  albumArt : String
  songUrl : String
  trackId : Option String
  type : String
deriving DecidableEq, Repr

/-- Cache entry written by `spotify-worker.js`:
`{ data, timestamp, lastRun }`, where `data` may be `null`. -/
structure SEntry where
  data : Option Track
  timestamp : Nat
  lastRun : Nat
deriving DecidableEq, Repr

/-- `CACHE_TTL_MS` in `goodreads-worker.js` (1 hour). -/
def CACHE_TTL_MS : Nat := 3600000

/-- `FETCH_CACHE_TTL` in `spotify-worker.js` (30 seconds). -/
def FETCH_CACHE_TTL : Nat := 30000

/-- `SCHEDULE_INTERVAL` in `spotify-worker.js` (2 minutes). -/
def SCHEDULE_INTERVAL : Nat := 120000

/-- Response body of the `goodreads-worker.js` fetch handler: a JSON
books object, or the 500 `{error, message}` body. -/
inductive GOut where
  | ok (books : GBooks)
  | err
deriving DecidableEq, Repr

/-- Response body of the older reading-list variant's fetch handler. -/
inductive P1Out where
  | ok (books : P1Books)
  | err
deriving DecidableEq, Repr

/-- Response body of the `spotify-worker.js` fetch handler: a JSON
track (possibly `null`), or the 500 `{error, message}` body. -/
inductive SOut where
  | ok (track : Option Track)
  | err
deriving DecidableEq, Repr

/-- Result of one on-demand invocation of `goodreads-worker.js`. -/
structure GResult where
  body : GOut
  cache : Option GEntry
  writes : Nat
  didFetch : Bool
deriving DecidableEq, Repr

/-- Result of one scheduled invocation of a reading-list worker.
`propagated` records whether an exception escaped the handler. -/
structure GSchedResult where
  cache : Option GEntry
  writes : Nat
  didFetch : Bool
  propagated : Bool
deriving DecidableEq, Repr

/-- Result of one on-demand invocation of the older reading-list
variant. -/
structure P1Result where
  body : P1Out
  cache : Option P1Entry
  writes : Nat
  didFetch : Bool
deriving DecidableEq, Repr

/-- Result of one scheduled invocation of the older reading-list
variant. -/
structure P1SchedResult where
  cache : Option P1Entry
  writes : Nat
  didFetch : Bool
  propagated : Bool
deriving DecidableEq, Repr

/-- Result of one on-demand invocation of `spotify-worker.js`. -/
structure SResult where
  body : SOut
  cache : Option SEntry
  writes : Nat
  didFetch : Bool
deriving DecidableEq, Repr

/-- Result of one scheduled invocation of `spotify-worker.js`. -/
structure SSchedResult where
  cache : Option SEntry
  writes : Nat
  didFetch : Bool
  propagated : Bool
deriving DecidableEq, Repr

/-- `hasBookChanged(newBooks, existingBooks)` from
`goodreads-worker.js`: changed when no existing current book; never
changed when the fresh current book is `null` (the null-blip guard);
otherwise compare title and author. -/
def hasBookChanged (newBooks : GBooks) (existingBooks : Option GBooks) : Bool :=
  match existingBooks.bind (fun e => e.current) with
  | none => true
  | some ec =>
    match newBooks.current with
    | none => false
    | some nc => nc.title != ec.title || nc.author != ec.author

/-- The inline `bookChanged` computation of the older reading-list
variant: `!existingBooks?.current || books.current?.title !==
existingBooks?.current?.title || books.current?.author !== ...`.
Optional chaining on a `null` current yields `undefined`, modelled as
`none`; JavaScript `!==` between `undefined` and a string is `true`. -/
def p1BookChanged (books : P1Books) (existingBooks : Option P1Books) : Bool :=
  (existingBooks.bind (fun e => e.current)).isNone
  || (books.current.map (fun b => b.title))
       != ((existingBooks.bind (fun e => e.current)).map (fun b => b.title))
  || (books.current.map (fun b => b.author))
       != ((existingBooks.bind (fun e => e.current)).map (fun b => b.author))

/-- JavaScript truthiness of the `trackId` field: `null`/`undefined`
and the empty string are falsy. -/
def truthyId : Option String → Bool
  | none => false
  | some s => s != ""

/-- `tracksEqual(track1, track2)` from `spotify-worker.js`: `null`s are
equal to each other only; with both `trackId`s truthy, compare
`trackId` and `isPlaying`; otherwise fall back to `JSON.stringify`
comparison, which for these record shapes is full structural
equality. -/
def tracksEqual : Option Track → Option Track → Bool
  | none, none => true
  | none, some _ => false
  | some _, none => false
  | some t1, some t2 =>
    if truthyId t1.trackId && truthyId t2.trackId then
      t1.trackId == t2.trackId && t1.isPlaying == t2.isPlaying
    else
      t1 == t2

/-- The part of the `goodreads-worker.js` fetch handler that runs once
the cached entry is absent or stale: fetch, stale-serve on failure
when any entry exists, otherwise compare and write.  Every successful
fetch on this path performs exactly one KV write: fresh data on a
change or when no entry exists, and otherwise a timestamp-only refresh
that re-stores the previous `data`. -/
def goodreadsFetchStale (now : Nat) (cached : Option GEntry)
    (fetched : Except Unit GBooks) : GResult :=
  match fetched with
  | .error _ =>
    match cached with
    | some c => ⟨GOut.ok c.data, some c, 0, true⟩
    | none => ⟨GOut.err, none, 0, true⟩
  | .ok books =>
    let existingBooks : Option GBooks := cached.map (fun c => c.data)
    if hasBookChanged books existingBooks then
      ⟨GOut.ok books, some ⟨books, now⟩, 1, true⟩
    else
      match cached with
      | none => ⟨GOut.ok books, some ⟨books, now⟩, 1, true⟩
      | some c => ⟨GOut.ok books, some ⟨c.data, now⟩, 1, true⟩

/-- The on-demand `fetch` handler of `goodreads-worker.js`.  The
freshness gate is `cached?.timestamp && Date.now() - cached.timestamp
< CACHE_TTL_MS` (a zero timestamp is falsy in JavaScript). -/
def goodreadsFetch (now : Nat) (cached : Option GEntry)
    (fetched : Except Unit GBooks) : GResult :=
  match cached with
  | some c =>
    if c.timestamp ≠ 0 ∧ now - c.timestamp < CACHE_TTL_MS then
      ⟨GOut.ok c.data, some c, 0, false⟩
    else
      goodreadsFetchStale now (some c) fetched
  | none => goodreadsFetchStale now none fetched

/-- The `scheduled` handler of `goodreads-worker.js`: fetch failure is
caught and nothing is written; an unchanged book with an existing
entry skips the write; otherwise the fresh books are written.  There
is no minimum-interval gate, and the outer catch means no exception
ever propagates. -/
def goodreadsScheduled (now : Nat) (cached : Option GEntry)
    (fetched : Except Unit GBooks) : GSchedResult :=
  match fetched with
  | .error _ => ⟨cached, 0, true, false⟩
  | .ok books =>
    let existingBooks : Option GBooks := cached.map (fun c => c.data)
    if hasBookChanged books existingBooks = false ∧ existingBooks.isSome then
      ⟨cached, 0, true, false⟩
    else
      ⟨some ⟨books, now⟩, 1, true, false⟩

/-- The stale part of the older reading-list variant's fetch handler.
This variant has no inner try/catch around the fetch: a fetch failure
falls to the outer catch and surfaces a 500 even when a (stale) entry
exists.  On success it writes only when `bookChanged` (or no entry)
and otherwise skips the write entirely. -/
def p1FetchStale (now : Nat) (cached : Option P1Entry)
    (fetched : Except Unit P1Books) : P1Result :=
  match fetched with
  | .error _ => ⟨P1Out.err, cached, 0, true⟩
  | .ok books =>
    let existingBooks : Option P1Books := cached.map (fun c => c.data)
    if p1BookChanged books existingBooks || existingBooks.isNone then
      ⟨P1Out.ok books, some ⟨books, now⟩, 1, true⟩
    else
      ⟨P1Out.ok books, cached, 0, true⟩

/-- The on-demand `fetch` handler of the older reading-list variant. -/
def p1Fetch (now : Nat) (cached : Option P1Entry)
    (fetched : Except Unit P1Books) : P1Result :=
  match cached with
  | some c =>
    if c.timestamp ≠ 0 ∧ now - c.timestamp < CACHE_TTL_MS then
      ⟨P1Out.ok c.data, some c, 0, false⟩
    else
      p1FetchStale now (some c) fetched
  | none => p1FetchStale now none fetched

/-- The `scheduled` handler of the older reading-list variant: the
outer catch absorbs fetch failures (no write); an unchanged book with
an existing entry skips the write; otherwise the fresh books are
written.  No minimum-interval gate exists. -/
def p1Scheduled (now : Nat) (cached : Option P1Entry)
    (fetched : Except Unit P1Books) : P1SchedResult :=
  match fetched with
  | .error _ => ⟨cached, 0, true, false⟩
  | .ok books =>
    let existingBooks : Option P1Books := cached.map (fun c => c.data)
    if p1BookChanged books existingBooks = false ∧ existingBooks.isSome then
      ⟨cached, 0, true, false⟩
    else
      ⟨some ⟨books, now⟩, 1, true, false⟩

/-- The stale part of the `spotify-worker.js` fetch handler.  The
fetched value is the combined result of `getNowPlaying` with the
`getRecentlyPlayed` fallback (`none` when both report nothing); any
thrown error falls to the outer catch and surfaces a 500 even when a
stale entry exists.  On success the handler writes `{data, timestamp,
lastRun}` exactly when `tracksEqual` denies equality with
`cached?.data`, and always responds with the freshly fetched track. -/
def spotifyFetchStale (now : Nat) (cached : Option SEntry)
    (fetched : Except Unit (Option Track)) : SResult :=
  match fetched with
  | .error _ => ⟨SOut.err, cached, 0, true⟩
  | .ok track =>
    let existingTrack : Option Track := cached.bind (fun c => c.data)
    if tracksEqual track existingTrack then
      ⟨SOut.ok track, cached, 0, true⟩
    else
      ⟨SOut.ok track, some ⟨track, now, now⟩, 1, true⟩

/-- The on-demand `fetch` handler of `spotify-worker.js`.  The
freshness gate is `cached && cached.timestamp && Date.now() -
cached.timestamp < FETCH_CACHE_TTL`. -/
def spotifyFetch (now : Nat) (cached : Option SEntry)
    (fetched : Except Unit (Option Track)) : SResult :=
  match cached with
  | some c =>
    if c.timestamp ≠ 0 ∧ now - c.timestamp < FETCH_CACHE_TTL then
      ⟨SOut.ok c.data, some c, 0, false⟩
    else
      spotifyFetchStale now (some c) fetched
  | none => spotifyFetchStale now none fetched

/-- The `scheduled` handler of `spotify-worker.js`.  The self-throttle
reads `existingData?.lastRun` (falsy when absent) and returns
immediately when `now - lastRun < SCHEDULE_INTERVAL`.  A combined
fetch of `none` (nothing playing, nothing recently played) returns
without writing whether or not an entry exists; an API error is
caught and nothing is written; an unchanged track skips the write;
otherwise `{data, timestamp: now, lastRun: now}` is written.  The
outer catch means no exception ever propagates. -/
def spotifyScheduled (now : Nat) (cached : Option SEntry)
    (fetched : Except Unit (Option Track)) : SSchedResult :=
  let lastRun : Nat := match cached with | some c => c.lastRun | none => 0
  if lastRun ≠ 0 ∧ now - lastRun < SCHEDULE_INTERVAL then
    ⟨cached, 0, false, false⟩
  else
    match fetched with
    | .error _ => ⟨cached, 0, true, false⟩
    | .ok none => ⟨cached, 0, true, false⟩
    | .ok (some t) =>
      let existingTrack : Option Track := cached.bind (fun c => c.data)
      if tracksEqual (some t) existingTrack then
        ⟨cached, 0, true, false⟩
      else
        ⟨some ⟨some t, now, now⟩, 1, true, false⟩

/-- Sample book used in concrete witnesses and counterexamples. -/
def duneBook : GBook := ⟨"Dune", "Frank Herbert", "cover-old.jpg", "link-1"⟩

/-- The same book with only the display-payload cover changed. -/
def duneBookNewCover : GBook := ⟨"Dune", "Frank Herbert", "cover-new.jpg", "link-1"⟩

/-- Books record holding `duneBook`. -/
def duneBooks : GBooks := ⟨some duneBook, none⟩

/-- Books record holding `duneBookNewCover`. -/
def duneBooksNewCover : GBooks := ⟨some duneBookNewCover, none⟩

/-- Books record for an empty feed (`current: null`). -/
def emptyBooks : GBooks := ⟨none, none⟩

/-- Sample playback record with a truthy `trackId`. -/
def sampleTrack : Track :=
  ⟨true, "Song", "Artist", "Album", "art-1.jpg", "url-1", some ("T1"), "track"⟩


/-- A run of reading-list polls against `goodreads-worker.js`'s
on-demand handler: each element gives the poll time and the fetch
outcome; the result is the final cache state and the total number of
KV writes. -/
def goodreadsFetchRun :
    Option GEntry → List (Nat × Except Unit GBooks) → Option GEntry × Nat
  | cache, [] => (cache, 0)
  | cache, (now, fetched) :: rest =>
    let r := goodreadsFetch now cache fetched
    let tail := goodreadsFetchRun r.cache rest
    (tail.1, r.writes + tail.2)

/-- A run of scheduled reading-list ticks against
`goodreads-worker.js`'s scheduled handler, every tick fetching the
same `books` successfully. -/
def goodreadsSchedRun (books : GBooks) :
    Option GEntry → List Nat → Option GEntry × Nat
  | cache, [] => (cache, 0)
  | cache, now :: rest =>
    let r := goodreadsScheduled now cache (.ok books)
    let tail := goodreadsSchedRun books r.cache rest
    (tail.1, r.writes + tail.2)

/-- A run of playback polls: each element marks the invocation kind
(`true` = on-demand request, `false` = scheduled tick) and its time;
every fetch succeeds with the same result `R`. -/
def spotifyRun (R : Option Track) :
    Option SEntry → List (Bool × Nat) → Option SEntry × Nat
  | cache, [] => (cache, 0)
  | cache, (kind, now) :: rest =>
    let step : Option SEntry × Nat :=
      if kind then
        let r := spotifyFetch now cache (.ok R)
        (r.cache, r.writes)
      else
        let r := spotifyScheduled now cache (.ok R)
        (r.cache, r.writes)
    let tail := spotifyRun R step.1 rest
    (tail.1, step.2 + tail.2)

theorem tracksEqual_refl (x : Option Track) : tracksEqual x x = true := by
  cases x with
  | none => rfl
  | some t => simp [tracksEqual]

theorem hasBookChanged_self (books : GBooks) (b : GBook)
    (h : books.current = some b) :
    hasBookChanged books (some books) = false := by
  simp [hasBookChanged, Option.some_bind, h]

theorem spotifyFetch_unchanged (R : Option Track) (now t : Nat) :
    (spotifyFetch now (some ⟨R, t, t⟩) (.ok R)).cache = some ⟨R, t, t⟩ ∧
    (spotifyFetch now (some ⟨R, t, t⟩) (.ok R)).writes = 0 := by
  by_cases h : t ≠ 0 ∧ now - t < FETCH_CACHE_TTL
  · simp [spotifyFetch, h]
  · simp [spotifyFetch, h, spotifyFetchStale, tracksEqual_refl]

theorem spotifyScheduled_unchanged (R : Option Track) (now t : Nat) :
    (spotifyScheduled now (some ⟨R, t, t⟩) (.ok R)).cache = some ⟨R, t, t⟩ ∧
    (spotifyScheduled now (some ⟨R, t, t⟩) (.ok R)).writes = 0 := by
  by_cases h : t ≠ 0 ∧ now - t < SCHEDULE_INTERVAL
  · simp [spotifyScheduled, h]
  · cases R with
    | none => simp [spotifyScheduled, h]
    | some r => simp [spotifyScheduled, h, tracksEqual_refl]

theorem spotifyRun_stable (R : Option Track) (t : Nat)
    (polls : List (Bool × Nat)) :
    spotifyRun R (some ⟨R, t, t⟩) polls = (some ⟨R, t, t⟩, 0) := by
  induction polls with
  | nil => rfl
  | cons p rest ih =>
    obtain ⟨kind, now⟩ := p
    cases kind with
    | false =>
      have h := spotifyScheduled_unchanged R now t
      simp [spotifyRun, h.1, h.2, ih]
    | true =>
      have h := spotifyFetch_unchanged R now t
      simp [spotifyRun, h.1, h.2, ih]

theorem spotifyFetch_none_none (now : Nat) :
    spotifyFetch now none (.ok none) = ⟨SOut.ok none, none, 0, true⟩ := rfl

theorem spotifyFetch_none_some (now : Nat) (r : Track) :
    spotifyFetch now none (.ok (some r))
      = ⟨SOut.ok (some r), some ⟨some r, now, now⟩, 1, true⟩ := rfl

theorem spotifyScheduled_none_none (now : Nat) :
    spotifyScheduled now none (.ok none) = ⟨none, 0, true, false⟩ := rfl

theorem spotifyScheduled_none_some (now : Nat) (r : Track) :
    spotifyScheduled now none (.ok (some r))
      = ⟨some ⟨some r, now, now⟩, 1, true, false⟩ := rfl

theorem spotifyRun_from_none (R : Option Track) (polls : List (Bool × Nat)) :
    (spotifyRun R none polls).2 ≤ 1 := by
  induction polls with
  | nil => simp [spotifyRun]
  | cons p rest ih =>
    obtain ⟨kind, now⟩ := p
    cases R with
    | none =>
      cases kind with
      | false => simpa [spotifyRun, spotifyScheduled_none_none] using ih
      | true => simpa [spotifyRun, spotifyFetch_none_none] using ih
    | some r =>
      cases kind with
      | false =>
        simp [spotifyRun, spotifyScheduled_none_some, spotifyRun_stable]
      | true =>
        simp [spotifyRun, spotifyFetch_none_some, spotifyRun_stable]

theorem goodreadsScheduled_self (books : GBooks) (b : GBook)
    (h : books.current = some b) (now t : Nat) :
    goodreadsScheduled now (some ⟨books, t⟩) (.ok books)
      = ⟨some ⟨books, t⟩, 0, true, false⟩ := by
  simp [goodreadsScheduled, hasBookChanged_self books b h]

theorem goodreadsScheduled_none (books : GBooks) (now : Nat) :
    goodreadsScheduled now none (.ok books)
      = ⟨some ⟨books, now⟩, 1, true, false⟩ := by
  simp [goodreadsScheduled, hasBookChanged]

theorem goodreadsSchedRun_stable (books : GBooks) (b : GBook)
    (h : books.current = some b) (t : Nat) (ticks : List Nat) :
    goodreadsSchedRun books (some ⟨books, t⟩) ticks = (some ⟨books, t⟩, 0) := by
  induction ticks with
  | nil => rfl
  | cons now rest ih =>
    simp [goodreadsSchedRun, goodreadsScheduled_self books b h, ih]

theorem goodreadsSchedRun_from_none (books : GBooks) (b : GBook)
    (h : books.current = some b) (ticks : List Nat) :
    (goodreadsSchedRun books none ticks).2 ≤ 1 := by
  cases ticks with
  | nil => simp [goodreadsSchedRun]
  | cons now rest =>
    simp [goodreadsSchedRun, goodreadsScheduled_none,
      goodreadsSchedRun_stable books b h now rest]

theorem spotifyScheduled_throttled (now : Nat) (e : SEntry)
    (fetched : Except Unit (Option Track))
    (h1 : e.lastRun ≠ 0) (h2 : now - e.lastRun < SCHEDULE_INTERVAL) :
    spotifyScheduled now (some e) fetched = ⟨some e, 0, false, false⟩ := by
  simp [spotifyScheduled, h1, h2]

/-- Claim C1 (counterexample): in the playback worker's on-demand path,
a stale cache holding a non-null record is overwritten by a successful
fetch that yields `null`: after the poll the cache reports `null`, not
the previous known-good record. -/
theorem C1_counterexample :
    (spotifyFetch 40000 (some ⟨some sampleTrack, 1, 1⟩) (.ok none)).cache
      = some ⟨none, 40000, 40000⟩ ∧
    (spotifyFetch 40000 (some ⟨some sampleTrack, 1, 1⟩) (.ok none)).writes = 1 := by
  decide

/-- Claim C1 (amended): the fetched-null-never-erases guarantee holds
for the `goodreads-worker.js` on-demand path, the `goodreads-worker.js`
scheduled path, and the playback worker's scheduled path; the playback
on-demand path (and the older reading-list variant) instead treats the
null as a change and overwrites the stored record. -/
theorem C1_theorem :
    (∀ (now : Nat) (e : GEntry) (b : GBook) (books : GBooks),
        e.data.current = some b → books.current = none →
        ((goodreadsFetch now (some e) (.ok books)).cache).map
            (fun c => c.data.current) = some (some b)) ∧
    (∀ (now : Nat) (e : GEntry) (b : GBook) (books : GBooks),
        e.data.current = some b → books.current = none →
        (goodreadsScheduled now (some e) (.ok books)).cache = some e) ∧
    (∀ (now : Nat) (e : SEntry) (t : Track),
        e.data = some t →
        (spotifyScheduled now (some e) (.ok none)).cache = some e) := by
  refine ⟨?_, ?_, ?_⟩
  · intro now e b books hb hn
    have hch : hasBookChanged books (some e.data) = false := by
      simp [hasBookChanged, Option.some_bind, hb, hn]
    by_cases h : e.timestamp ≠ 0 ∧ now - e.timestamp < CACHE_TTL_MS
    · simp [goodreadsFetch, h, hb]
    · simp [goodreadsFetch, h, goodreadsFetchStale, hch, hb]
  · intro now e b books hb hn
    have hch : hasBookChanged books (some e.data) = false := by
      simp [hasBookChanged, Option.some_bind, hb, hn]
    simp [goodreadsScheduled, hch]
  · intro now e t ht
    by_cases h : e.lastRun ≠ 0 ∧ now - e.lastRun < SCHEDULE_INTERVAL
    · simp [spotifyScheduled, h]
    · simp [spotifyScheduled, h]

/-- Claim C1 (witness): the amended theorem at a concrete stale cache
holding the Dune book (resp. a sample track) with a null fetch. -/
theorem C1_witness :
    (⟨duneBooks, 5⟩ : GEntry).data.current = some duneBook ∧
    emptyBooks.current = none ∧
    ((goodreadsFetch 10 (some ⟨duneBooks, 5⟩) (.ok emptyBooks)).cache).map
        (fun c => c.data.current) = some (some duneBook) ∧
    (goodreadsScheduled 10 (some ⟨duneBooks, 5⟩) (.ok emptyBooks)).cache
      = some ⟨duneBooks, 5⟩ ∧
    (spotifyScheduled 10 (some ⟨some sampleTrack, 5, 5⟩) (.ok none)).cache
      = some ⟨some sampleTrack, 5, 5⟩ :=
  ⟨by decide, by decide,
   C1_theorem.1 10 ⟨duneBooks, 5⟩ duneBook emptyBooks (by decide) (by decide),
   C1_theorem.2.1 10 ⟨duneBooks, 5⟩ duneBook emptyBooks (by decide) (by decide),
   C1_theorem.2.2 10 ⟨some sampleTrack, 5, 5⟩ sampleTrack (by decide)⟩

/-- Claim C2 (counterexample): two on-demand reading-list polls, one
hour apart, both fetching the identical non-null record, produce two
KV writes — `goodreads-worker.js` re-writes the entry as a
timestamp-only refresh once the freshness window has elapsed, so the
write count grows with the poll count. -/
theorem C2_counterexample :
    ¬ ((goodreadsFetchRun none
        [(1000, .ok duneBooks), (3601000, .ok duneBooks)]).2 ≤ 1) := by
  decide

/-- Claim C2 (amended): for every sequence of playback polls
(on-demand or scheduled, in any order and at any times) whose fetches
all return the same record, the playback store is written at most
once from an empty cache; the same bound holds for the reading-list
scheduled path when the repeated record has a non-null current book.
The reading-list on-demand path does not satisfy the bound: it
performs an additional timestamp-refresh write on every poll that
finds the entry stale. -/
theorem C2_theorem :
    (∀ (R : Option Track) (polls : List (Bool × Nat)),
        (spotifyRun R none polls).2 ≤ 1) ∧
    (∀ (books : GBooks) (b : GBook), books.current = some b →
        ∀ ticks : List Nat, (goodreadsSchedRun books none ticks).2 ≤ 1) := by
  refine ⟨?_, ?_⟩
  · intro R polls
    exact spotifyRun_from_none R polls
  · intro books b h ticks
    exact goodreadsSchedRun_from_none books b h ticks

/-- Claim C2 (witness): the amended bound evaluated on a concrete
mixed playback poll sequence and a concrete scheduled reading-list
tick sequence. -/
theorem C2_witness :
    (spotifyRun (some sampleTrack) none
        [(true, 1000), (false, 2000), (true, 200000), (false, 400000)]).2 ≤ 1 ∧
    (duneBooks.current = some duneBook ∧
      (goodreadsSchedRun duneBooks none [1000, 2000000, 5000000]).2 ≤ 1) :=
  ⟨C2_theorem.1 (some sampleTrack)
      [(true, 1000), (false, 2000), (true, 200000), (false, 400000)],
   by decide,
   C2_theorem.2 duneBooks duneBook (by decide) [1000, 2000000, 5000000]⟩

/-- Claim C3 (counterexample): a scheduled reading-list tick arriving
one minute after the entry's last poll time — far inside the claimed
30-minute minimum interval — still performs an upstream fetch:
`goodreads-worker.js`'s scheduled handler has no self-throttle. -/
theorem C3_counterexample :
    (goodreadsScheduled 61000 (some ⟨duneBooks, 1000⟩) (.ok duneBooks)).didFetch
      = true ∧ (61000 : Nat) - 1000 < 1800000 := by
  decide

/-- Claim C3 (amended): only the playback worker self-throttles: a
scheduled tick with a nonzero stored `lastRun` and `now - lastRun <
120000` returns immediately with no fetch and no write; the
reading-list scheduled handler performs an upstream fetch on every
tick, with no minimum-interval gate. -/
theorem C3_theorem :
    (∀ (now : Nat) (e : SEntry) (fetched : Except Unit (Option Track)),
        e.lastRun ≠ 0 → now - e.lastRun < SCHEDULE_INTERVAL →
        spotifyScheduled now (some e) fetched = ⟨some e, 0, false, false⟩) ∧
    (∀ (now : Nat) (cached : Option GEntry) (books : GBooks),
        (goodreadsScheduled now cached (.ok books)).didFetch = true) := by
  refine ⟨?_, ?_⟩
  · intro now e fetched h1 h2
    exact spotifyScheduled_throttled now e fetched h1 h2
  · intro now cached books
    simp only [goodreadsScheduled]
    split <;> rfl

/-- Claim C3 (witness): the amended theorem at a concrete throttled
playback tick and a concrete reading-list tick. -/
theorem C3_witness :
    (⟨some sampleTrack, 1000, 1000⟩ : SEntry).lastRun ≠ 0 ∧
    (61000 : Nat) - 1000 < SCHEDULE_INTERVAL ∧
    spotifyScheduled 61000 (some ⟨some sampleTrack, 1000, 1000⟩) (.ok none)
      = ⟨some ⟨some sampleTrack, 1000, 1000⟩, 0, false, false⟩ ∧
    (goodreadsScheduled 61000 (some ⟨duneBooks, 1000⟩) (.ok duneBooks)).didFetch
      = true :=
  ⟨by decide, by decide,
   C3_theorem.1 61000 ⟨some sampleTrack, 1000, 1000⟩ (.ok none)
     (by decide) (by decide),
   C3_theorem.2 61000 (some ⟨duneBooks, 1000⟩) duneBooks⟩

/-- Sample playback record identical to `sampleTrack` except for the
display-payload album art. -/
def sampleTrackNewArt : Track :=
  ⟨true, "Song", "Artist", "Album", "art-2.jpg", "url-1", some ("T1"), "track"⟩

/-- Sample podcast-episode records without a `trackId`, identical
except for the display-payload album art. -/
def episodeTrackA : Track :=
  ⟨false, "Ep", "Show", "Show", "art-A.jpg", "url-e", none, "episode"⟩

/-- Second episode record, differing from `episodeTrackA` only in
`albumArt`. -/
def episodeTrackB : Track :=
  ⟨false, "Ep", "Show", "Show", "art-B.jpg", "url-e", none, "episode"⟩

/-- Claim C4 (counterexample): in the playback worker's on-demand
path, a fetch failure with a stale cache entry present returns the 500
error body, not the entry's record: nothing is stale-served. -/
theorem C4_counterexample :
    (spotifyFetch 40000 (some ⟨some sampleTrack, 1, 1⟩) (.error ())).body
      = SOut.err := by
  decide

/-- Claim C4 (amended): the stale-serving-on-failure contract holds
exactly in `goodreads-worker.js`: with any entry present a failed
fetch returns that entry's record with no write and no error, and with
no entry the failure surfaces as an error result.  In the older
reading-list variant and the playback worker, a fetch failure past the
freshness window surfaces the error even when a stale entry exists. -/
theorem C4_theorem :
    (∀ (now : Nat) (e : GEntry),
        (goodreadsFetch now (some e) (.error ())).body = GOut.ok e.data ∧
        (goodreadsFetch now (some e) (.error ())).cache = some e ∧
        (goodreadsFetch now (some e) (.error ())).writes = 0) ∧
    (∀ now : Nat,
        goodreadsFetch now none (.error ()) = ⟨GOut.err, none, 0, true⟩) ∧
    (∀ (now : Nat) (e : SEntry),
        ¬ (e.timestamp ≠ 0 ∧ now - e.timestamp < FETCH_CACHE_TTL) →
        spotifyFetch now (some e) (.error ()) = ⟨SOut.err, some e, 0, true⟩) ∧
    (∀ (now : Nat) (e : P1Entry),
        ¬ (e.timestamp ≠ 0 ∧ now - e.timestamp < CACHE_TTL_MS) →
        p1Fetch now (some e) (.error ()) = ⟨P1Out.err, some e, 0, true⟩) := by
  refine ⟨?_, ?_, ?_, ?_⟩
  · intro now e
    by_cases h : e.timestamp ≠ 0 ∧ now - e.timestamp < CACHE_TTL_MS
    · simp [goodreadsFetch, h]
    · simp [goodreadsFetch, h, goodreadsFetchStale]
  · intro now
    rfl
  · intro now e h
    simp [spotifyFetch, h, spotifyFetchStale]
  · intro now e h
    simp [p1Fetch, h, p1FetchStale]

/-- Claim C4 (witness): the amended theorem at concrete stale caches
and a missing cache, all with a failing fetch. -/
theorem C4_witness :
    ((goodreadsFetch 9999999 (some ⟨duneBooks, 1000⟩) (.error ())).body
        = GOut.ok duneBooks ∧
      (goodreadsFetch 9999999 (some ⟨duneBooks, 1000⟩) (.error ())).cache
        = some ⟨duneBooks, 1000⟩ ∧
      (goodreadsFetch 9999999 (some ⟨duneBooks, 1000⟩) (.error ())).writes = 0) ∧
    goodreadsFetch 1000 none (.error ()) = ⟨GOut.err, none, 0, true⟩ ∧
    (¬ ((1000 : Nat) ≠ 0 ∧ (40000 : Nat) - 1000 < FETCH_CACHE_TTL) ∧
      spotifyFetch 40000 (some ⟨some sampleTrack, 1000, 1000⟩) (.error ())
        = ⟨SOut.err, some ⟨some sampleTrack, 1000, 1000⟩, 0, true⟩) ∧
    (¬ ((1000 : Nat) ≠ 0 ∧ (9999999 : Nat) - 1000 < CACHE_TTL_MS) ∧
      p1Fetch 9999999 (some ⟨⟨some duneBook⟩, 1000⟩) (.error ())
        = ⟨P1Out.err, some ⟨⟨some duneBook⟩, 1000⟩, 0, true⟩) :=
  ⟨C4_theorem.1 9999999 ⟨duneBooks, 1000⟩,
   C4_theorem.2.1 1000,
   ⟨by decide,
    C4_theorem.2.2.1 40000 ⟨some sampleTrack, 1000, 1000⟩ (by decide)⟩,
   ⟨by decide,
    C4_theorem.2.2.2 9999999 ⟨⟨some duneBook⟩, 1000⟩ (by decide)⟩⟩

/-- Claim C5 (counterexample): two non-null playback records with no
`trackId` (JavaScript-falsy identity key) that agree on every identity
field and differ only in the display-payload `albumArt` are judged NOT
equal: `tracksEqual` falls back to full structural comparison, so a
cosmetic change does trigger a write. -/
theorem C5_counterexample :
    episodeTrackA.trackId = episodeTrackB.trackId ∧
    episodeTrackA.isPlaying = episodeTrackB.isPlaying ∧
    episodeTrackA.title = episodeTrackB.title ∧
    tracksEqual (some episodeTrackA) (some episodeTrackB) = false := by
  decide

/-- Claim C5 (amended): the reading-list predicate judges two records
with non-null current books equal iff title and author match exactly
(case-sensitively); the playback predicate judges two records equal
iff `trackId` and `isPlaying` match — provided both `trackId`s are
truthy (non-null, non-empty).  When either `trackId` is missing the
playback predicate falls back to full structural comparison, where
display-payload differences do count. -/
theorem C5_theorem :
    (∀ (nb eb : GBooks) (n e : GBook),
        nb.current = some n → eb.current = some e →
        (hasBookChanged nb (some eb) = false ↔
          n.title = e.title ∧ n.author = e.author)) ∧
    (∀ t1 t2 : Track,
        truthyId t1.trackId = true → truthyId t2.trackId = true →
        (tracksEqual (some t1) (some t2) = true ↔
          t1.trackId = t2.trackId ∧ t1.isPlaying = t2.isPlaying)) := by
  refine ⟨?_, ?_⟩
  · intro nb eb n e hn he
    simp [hasBookChanged, Option.some_bind, hn, he]
  · intro t1 t2 h1 h2
    simp [tracksEqual, h1, h2]

/-- Claim C5 (witness): the amended predicate characterizations at the
Dune books differing only in cover, and at two tracks with truthy ids
differing only in album art. -/
theorem C5_witness :
    (duneBooksNewCover.current = some duneBookNewCover ∧
      duneBooks.current = some duneBook ∧
      (hasBookChanged duneBooksNewCover (some duneBooks) = false ↔
        duneBookNewCover.title = duneBook.title ∧
        duneBookNewCover.author = duneBook.author)) ∧
    (truthyId sampleTrack.trackId = true ∧
      truthyId sampleTrackNewArt.trackId = true ∧
      (tracksEqual (some sampleTrack) (some sampleTrackNewArt) = true ↔
        sampleTrack.trackId = sampleTrackNewArt.trackId ∧
        sampleTrack.isPlaying = sampleTrackNewArt.isPlaying)) :=
  ⟨⟨by decide, by decide,
    C5_theorem.1 duneBooksNewCover duneBooks duneBookNewCover duneBook
      (by decide) (by decide)⟩,
   ⟨by decide, by decide,
    C5_theorem.2 sampleTrack sampleTrackNewArt (by decide) (by decide)⟩⟩

/-- Claim C6 (counterexample): a stale reading-list cache with the
Dune book, refetched with identical title/author but a new cover,
produces one KV write in `goodreads-worker.js` (the timestamp-only
refresh) — the claimed "no store write" is violated — while the
response does carry the fresh record with the new cover. -/
theorem C6_counterexample :
    (goodreadsFetch 3601000 (some ⟨duneBooks, 1000⟩)
        (.ok duneBooksNewCover)).writes = 1 ∧
    (goodreadsFetch 3601000 (some ⟨duneBooks, 1000⟩)
        (.ok duneBooksNewCover)).body = GOut.ok duneBooksNewCover := by
  decide

/-- Claim C6 (amended): on a stale-entry poll fetching a record with
identical identity fields but changed display fields, every on-demand
path responds with the freshly fetched record (new display field
included); the older reading-list variant and the playback worker
perform no write, while `goodreads-worker.js` performs exactly one
timestamp-refresh write whose data is the previously stored record,
not the fresh one. -/
theorem C6_theorem :
    (∀ (now : Nat) (e : GEntry) (books : GBooks) (nb eb : GBook),
        ¬ (e.timestamp ≠ 0 ∧ now - e.timestamp < CACHE_TTL_MS) →
        e.data.current = some eb → books.current = some nb →
        nb.title = eb.title → nb.author = eb.author →
        goodreadsFetch now (some e) (.ok books)
          = ⟨GOut.ok books, some ⟨e.data, now⟩, 1, true⟩) ∧
    (∀ (now : Nat) (e : P1Entry) (books : P1Books) (nb eb : GBook),
        ¬ (e.timestamp ≠ 0 ∧ now - e.timestamp < CACHE_TTL_MS) →
        e.data.current = some eb → books.current = some nb →
        nb.title = eb.title → nb.author = eb.author →
        p1Fetch now (some e) (.ok books)
          = ⟨P1Out.ok books, some e, 0, true⟩) ∧
    (∀ (now : Nat) (e : SEntry) (t et : Track),
        ¬ (e.timestamp ≠ 0 ∧ now - e.timestamp < FETCH_CACHE_TTL) →
        e.data = some et →
        truthyId t.trackId = true → truthyId et.trackId = true →
        t.trackId = et.trackId → t.isPlaying = et.isPlaying →
        spotifyFetch now (some e) (.ok (some t))
          = ⟨SOut.ok (some t), some e, 0, true⟩) := by
  refine ⟨?_, ?_, ?_⟩
  · intro now e books nb eb hstale he hn ht ha
    have hch : hasBookChanged books (some e.data) = false := by
      simp [hasBookChanged, Option.some_bind, he, hn, ht, ha]
    simp [goodreadsFetch, hstale, goodreadsFetchStale, hch]
  · intro now e books nb eb hstale he hn ht ha
    have hch : p1BookChanged books (some e.data) = false := by
      simp [p1BookChanged, Option.some_bind, he, hn, ht, ha]
    simp [p1Fetch, hstale, p1FetchStale, hch]
  · intro now e t et hstale hdata h1 h2 hid hip
    have heq : tracksEqual (some t) (some et) = true := by
      simp [tracksEqual, h1, h2, hid, hip]
    simp [spotifyFetch, hstale, spotifyFetchStale, hdata, heq]

/-- Claim C6 (witness): the amended theorem at a concrete stale Dune
entry refetched with a new cover, and a concrete stale playback entry
refetched with new album art. -/
theorem C6_witness :
    (¬ ((1000 : Nat) ≠ 0 ∧ (3601000 : Nat) - 1000 < CACHE_TTL_MS) ∧
      goodreadsFetch 3601000 (some ⟨duneBooks, 1000⟩) (.ok duneBooksNewCover)
        = ⟨GOut.ok duneBooksNewCover, some ⟨duneBooks, 3601000⟩, 1, true⟩) ∧
    p1Fetch 3601000 (some ⟨⟨some duneBook⟩, 1000⟩) (.ok ⟨some duneBookNewCover⟩)
      = ⟨P1Out.ok ⟨some duneBookNewCover⟩, some ⟨⟨some duneBook⟩, 1000⟩, 0, true⟩ ∧
    spotifyFetch 40000 (some ⟨some sampleTrack, 1000, 1000⟩)
        (.ok (some sampleTrackNewArt))
      = ⟨SOut.ok (some sampleTrackNewArt),
          some ⟨some sampleTrack, 1000, 1000⟩, 0, true⟩ :=
  ⟨⟨by decide,
    C6_theorem.1 3601000 ⟨duneBooks, 1000⟩ duneBooksNewCover
      duneBookNewCover duneBook (by decide) (by decide) (by decide)
      (by decide) (by decide)⟩,
   C6_theorem.2.1 3601000 ⟨⟨some duneBook⟩, 1000⟩ ⟨some duneBookNewCover⟩
     duneBookNewCover duneBook (by decide) (by decide) (by decide)
     (by decide) (by decide),
   C6_theorem.2.2 40000 ⟨some sampleTrack, 1000, 1000⟩ sampleTrackNewArt
     sampleTrack (by decide) (by decide) (by decide) (by decide)
     (by decide) (by decide)⟩

/-- Claim C7: in all three on-demand handlers, a present cache entry
with a nonzero `timestamp` within the freshness window (1 hour for the
reading-list workers, 30 seconds for the playback worker) is returned
immediately: the cached record is the response body, no upstream fetch
happens, no write happens, and the cache is untouched. -/
theorem C7_theorem :
    (∀ (now : Nat) (c : GEntry) (fetched : Except Unit GBooks),
        c.timestamp ≠ 0 → now - c.timestamp < CACHE_TTL_MS →
        goodreadsFetch now (some c) fetched
          = ⟨GOut.ok c.data, some c, 0, false⟩) ∧
    (∀ (now : Nat) (c : P1Entry) (fetched : Except Unit P1Books),
        c.timestamp ≠ 0 → now - c.timestamp < CACHE_TTL_MS →
        p1Fetch now (some c) fetched = ⟨P1Out.ok c.data, some c, 0, false⟩) ∧
    (∀ (now : Nat) (c : SEntry) (fetched : Except Unit (Option Track)),
        c.timestamp ≠ 0 → now - c.timestamp < FETCH_CACHE_TTL →
        spotifyFetch now (some c) fetched
          = ⟨SOut.ok c.data, some c, 0, false⟩) := by
  refine ⟨?_, ?_, ?_⟩
  · intro now c fetched h1 h2
    simp [goodreadsFetch, h1, h2]
  · intro now c fetched h1 h2
    simp [p1Fetch, h1, h2]
  · intro now c fetched h1 h2
    simp [spotifyFetch, h1, h2]

/-- Claim C7 (witness): the freshness short-circuit at concrete fresh
entries in each worker, with a fetch outcome that would change the
data if it were consumed. -/
theorem C7_witness :
    goodreadsFetch 2000 (some ⟨duneBooks, 1000⟩) (.ok emptyBooks)
      = ⟨GOut.ok duneBooks, some ⟨duneBooks, 1000⟩, 0, false⟩ ∧
    p1Fetch 2000 (some ⟨⟨some duneBook⟩, 1000⟩) (.error ())
      = ⟨P1Out.ok ⟨some duneBook⟩, some ⟨⟨some duneBook⟩, 1000⟩, 0, false⟩ ∧
    spotifyFetch 2000 (some ⟨some sampleTrack, 1000, 1000⟩) (.error ())
      = ⟨SOut.ok (some sampleTrack), some ⟨some sampleTrack, 1000, 1000⟩,
          0, false⟩ :=
  ⟨C7_theorem.1 2000 ⟨duneBooks, 1000⟩ (.ok emptyBooks)
     (by decide) (by decide),
   C7_theorem.2.1 2000 ⟨⟨some duneBook⟩, 1000⟩ (.error ())
     (by decide) (by decide),
   C7_theorem.2.2 2000 ⟨some sampleTrack, 1000, 1000⟩ (.error ())
     (by decide) (by decide)⟩

/-- Claim C8: in all three scheduled handlers a fetch failure is
terminal for the tick — the cache is unchanged and nothing is written
— and no invocation, whatever its inputs, propagates an exception past
the handler boundary. -/
theorem C8_theorem :
    (∀ (now : Nat) (cached : Option GEntry),
        goodreadsScheduled now cached (.error ()) = ⟨cached, 0, true, false⟩) ∧
    (∀ (now : Nat) (cached : Option GEntry) (fetched : Except Unit GBooks),
        (goodreadsScheduled now cached fetched).propagated = false) ∧
    (∀ (now : Nat) (cached : Option P1Entry),
        p1Scheduled now cached (.error ()) = ⟨cached, 0, true, false⟩) ∧
    (∀ (now : Nat) (cached : Option P1Entry) (fetched : Except Unit P1Books),
        (p1Scheduled now cached fetched).propagated = false) ∧
    (∀ (now : Nat) (cached : Option SEntry),
        (spotifyScheduled now cached (.error ())).cache = cached ∧
        (spotifyScheduled now cached (.error ())).writes = 0) ∧
    (∀ (now : Nat) (cached : Option SEntry)
        (fetched : Except Unit (Option Track)),
        (spotifyScheduled now cached fetched).propagated = false) := by
  refine ⟨?_, ?_, ?_, ?_, ?_, ?_⟩
  · intro now cached
    rfl
  · intro now cached fetched
    cases fetched with
    | error e => rfl
    | ok books =>
      simp only [goodreadsScheduled]
      split <;> rfl
  · intro now cached
    rfl
  · intro now cached fetched
    cases fetched with
    | error e => rfl
    | ok books =>
      simp only [p1Scheduled]
      split <;> rfl
  · intro now cached
    simp only [spotifyScheduled]
    split
    · exact ⟨rfl, rfl⟩
    · exact ⟨rfl, rfl⟩
  · intro now cached fetched
    simp only [spotifyScheduled]
    split
    · rfl
    · split
      · rfl
      · rfl
      · split <;> rfl

/-- Claim C9: in `goodreads-worker.js`'s on-demand path, a stale entry
plus a successful fetch of an unchanged book (same title and author)
produces exactly one KV write whose `data` field is the previously
stored record — only the timestamp is refreshed, so the freshly
fetched display fields are not persisted. -/
theorem C9_theorem (now : Nat) (e : GEntry) (books : GBooks) (nb eb : GBook)
    (hstale : ¬ (e.timestamp ≠ 0 ∧ now - e.timestamp < CACHE_TTL_MS))
    (he : e.data.current = some eb) (hn : books.current = some nb)
    (ht : nb.title = eb.title) (ha : nb.author = eb.author) :
    goodreadsFetch now (some e) (.ok books)
      = ⟨GOut.ok books, some ⟨e.data, now⟩, 1, true⟩ := by
  have hch : hasBookChanged books (some e.data) = false := by
    simp [hasBookChanged, Option.some_bind, he, hn, ht, ha]
  simp [goodreadsFetch, hstale, goodreadsFetchStale, hch]

/-- Claim C9 (witness): the timestamp-refresh write at the concrete
stale Dune entry refetched with a new cover: the stored data stays the
old record, the timestamp moves to the poll time. -/
theorem C9_witness :
    ¬ ((1000 : Nat) ≠ 0 ∧ (3601000 : Nat) - 1000 < CACHE_TTL_MS) ∧
    (⟨duneBooks, 1000⟩ : GEntry).data.current = some duneBook ∧
    duneBooksNewCover.current = some duneBookNewCover ∧
    goodreadsFetch 3601000 (some ⟨duneBooks, 1000⟩) (.ok duneBooksNewCover)
      = ⟨GOut.ok duneBooksNewCover, some ⟨duneBooks, 3601000⟩, 1, true⟩ :=
  ⟨by decide, by decide, by decide,
   C9_theorem 3601000 ⟨duneBooks, 1000⟩ duneBooksNewCover
     duneBookNewCover duneBook (by decide) (by decide) (by decide)
     (by decide) (by decide)⟩

theorem spotifyFetch_write_shape (now : Nat) (cached : Option SEntry)
    (fetched : Except Unit (Option Track))
    (h : (spotifyFetch now cached fetched).writes = 1) :
    ∃ d, (spotifyFetch now cached fetched).cache = some ⟨d, now, now⟩ := by
  cases cached with
  | none =>
    cases fetched with
    | error e => simp [spotifyFetch, spotifyFetchStale] at h
    | ok track =>
      cases track with
      | none => simp [spotifyFetch, spotifyFetchStale, tracksEqual] at h
      | some r =>
        exact ⟨some r, by simp [spotifyFetch, spotifyFetchStale, tracksEqual]⟩
  | some c =>
    by_cases hf : c.timestamp ≠ 0 ∧ now - c.timestamp < FETCH_CACHE_TTL
    · simp [spotifyFetch, hf] at h
    · cases fetched with
      | error e => simp [spotifyFetch, hf, spotifyFetchStale] at h
      | ok track =>
        by_cases he : tracksEqual track c.data = true
        · simp [spotifyFetch, hf, spotifyFetchStale, he] at h
        · exact ⟨track, by simp [spotifyFetch, hf, spotifyFetchStale, he]⟩

/-- Claim C10: every playback on-demand write stores an entry with
`lastRun` equal to its `timestamp`, both set to the write time; a
scheduled tick whose `now - lastRun` is under the 2-minute interval
(for a nonzero `lastRun`) performs no fetch and no write; consequently
an on-demand write at a nonzero time `t` makes every scheduled tick
less than 2 minutes after `t` a complete no-op. -/
theorem C10_theorem :
    (∀ (now : Nat) (cached : Option SEntry)
        (fetched : Except Unit (Option Track)),
        (spotifyFetch now cached fetched).writes = 1 →
        ∃ d, (spotifyFetch now cached fetched).cache = some ⟨d, now, now⟩) ∧
    (∀ (now : Nat) (e : SEntry) (fetched : Except Unit (Option Track)),
        e.lastRun ≠ 0 → now - e.lastRun < SCHEDULE_INTERVAL →
        spotifyScheduled now (some e) fetched = ⟨some e, 0, false, false⟩) ∧
    (∀ (t t' : Nat) (cached : Option SEntry)
        (f g : Except Unit (Option Track)),
        (spotifyFetch t cached f).writes = 1 → t ≠ 0 →
        t' - t < SCHEDULE_INTERVAL →
        (spotifyScheduled t' ((spotifyFetch t cached f).cache) g).didFetch
            = false ∧
        (spotifyScheduled t' ((spotifyFetch t cached f).cache) g).writes
            = 0) := by
  refine ⟨?_, ?_, ?_⟩
  · intro now cached fetched h
    exact spotifyFetch_write_shape now cached fetched h
  · intro now e fetched h1 h2
    exact spotifyScheduled_throttled now e fetched h1 h2
  · intro t t' cached f g hw ht0 hlt
    obtain ⟨d, hcache⟩ := spotifyFetch_write_shape t cached f hw
    rw [hcache, spotifyScheduled_throttled t' ⟨d, t, t⟩ g ht0 hlt]
    exact ⟨rfl, rfl⟩

/-- Claim C10 (witness): a concrete on-demand write at time 1000
stores `lastRun = timestamp = 1000`, and a scheduled tick at time 2000
against the resulting cache is a no-op. -/
theorem C10_witness :
    ((spotifyFetch 1000 none (.ok (some sampleTrack))).writes = 1 ∧
      ∃ d, (spotifyFetch 1000 none (.ok (some sampleTrack))).cache
        = some ⟨d, 1000, 1000⟩) ∧
    ((⟨some sampleTrack, 1000, 1000⟩ : SEntry).lastRun ≠ 0 ∧
      (2000 : Nat) - 1000 < SCHEDULE_INTERVAL ∧
      spotifyScheduled 2000 (some ⟨some sampleTrack, 1000, 1000⟩) (.ok none)
        = ⟨some ⟨some sampleTrack, 1000, 1000⟩, 0, false, false⟩) ∧
    ((spotifyScheduled 2000
        ((spotifyFetch 1000 none (.ok (some sampleTrack))).cache)
        (.ok none)).didFetch = false ∧
      (spotifyScheduled 2000
        ((spotifyFetch 1000 none (.ok (some sampleTrack))).cache)
        (.ok none)).writes = 0) :=
  ⟨⟨by decide,
    C10_theorem.1 1000 none (.ok (some sampleTrack)) (by decide)⟩,
   ⟨by decide, by decide,
    C10_theorem.2.1 2000 ⟨some sampleTrack, 1000, 1000⟩ (.ok none)
      (by decide) (by decide)⟩,
   C10_theorem.2.2 1000 2000 none (.ok (some sampleTrack)) (.ok none)
     (by decide) (by decide) (by decide)⟩
